import Mathlib

/-
Verification development for the `bitcoind` test-fixture crate (src/lib.rs).

The crate launches a regtest bitcoind child process, reserves local ports,
provisions a temp working directory, polls the daemon until it answers
authenticated RPC calls, creates a default wallet, and tears everything
down on drop.

Shallow embedding conventions:
  - All interactions with the operating system and with the daemon
    (temp-dir creation, TcpListener binds, process spawn, RPC calls)
    are mediated by an explicit environment `Env` of oracles; the Rust
    functions become pure Lean functions of the environment.
  - The unbounded readiness loop of `BitcoinD::with_args` (lib.rs:155-168)
    is run with explicit fuel; exhausting the fuel yields the marker
    `running`, meaning "the loop is still polling", never an error.
  - Rust panics (the `unwrap`/`assert!` calls in the loop) are a
    distinguished `panic` outcome, separate from returned `Err` values.
  - Paths are lists of components; `u16` ports are modelled as `Nat`.
-/

/-- Model of `std::net::Ipv4Addr` (only the four octets matter here). -/
structure Ipv4Addr where
  a : Nat
  b : Nat
  c : Nat
  d : Nat
  deriving DecidableEq

/-- `Display` for `Ipv4Addr`, e.g. `127.0.0.1`. -/
def Ipv4Addr.display (ip : Ipv4Addr) : String :=
  toString ip.a ++ "." ++ toString ip.b ++ "." ++ toString ip.c ++ "." ++ toString ip.d

/-- Model of `std::net::SocketAddrV4`. -/
structure SocketAddrV4 where
  ip : Ipv4Addr
  port : Nat
  deriving DecidableEq

/-- `Display` for `SocketAddrV4`, e.g. `127.0.0.1:8332`. -/
def SocketAddrV4.display (s : SocketAddrV4) : String :=
  s.ip.display ++ ":" ++ toString s.port

/-- lib.rs:73 `const LOCAL_IP: Ipv4Addr = Ipv4Addr::new(127, 0, 0, 1);` -/
def LOCAL_IP : Ipv4Addr := ⟨127, 0, 0, 1⟩

/-- lib.rs:55-62, the `P2P` enum selecting peer-to-peer settings. -/
inductive P2P where
  | No : P2P
  | Yes : P2P
  | Connect (addr : SocketAddrV4) : P2P
  deriving DecidableEq

/-- Opaque payload of a `std::io::Error`. -/
structure IoError where
  msg : String
  deriving DecidableEq

/-- Opaque payload of a `bitcoincore_rpc::Error`. -/
structure RpcError where
  msg : String
  deriving DecidableEq

/-- lib.rs:66-71, the crate's error enum. -/
inductive Error where
  | Io (e : IoError) : Error
  | Rpc (e : RpcError) : Error
  deriving DecidableEq

/-- Model of `std::process::ExitStatus` (exit code). -/
structure ExitStatus where
  code : Nat
  deriving DecidableEq

/-- Model of `std::process::Stdio` configurations used by the crate. -/
inductive Stdio where
  | inherit : Stdio
  | null : Stdio
  | piped : Stdio
  deriving DecidableEq

/-- The command built at lib.rs:146-151: program, ordered argument list,
the stdout configuration, and the stderr configuration (`none` means the
builder was never told anything about stderr, i.e. the spawn default). -/
structure CommandSpec where
  program : String
  args : List String
  stdoutCfg : Stdio
  stderrCfg : Option Stdio
  deriving DecidableEq

/-- Model of `std::process::Child`: the only field the crate reads is
`stderr`, which is `Some` handle exactly when the builder requested
`Stdio::piped()` for stderr. -/
structure Child where
  stderr : Option Unit
  deriving DecidableEq

/-- Spawning yields a child whose `stderr` handle is present iff the
command was configured with a piped stderr. -/
def spawn_child (spec : CommandSpec) : Child :=
  ⟨match spec.stderrCfg with
    | some Stdio.piped => some ()
    | _ => none⟩

/-- Model of `bitcoincore_rpc::Auth` as used by the crate. -/
inductive Auth where
  | CookieFile (path : List String) : Auth
  deriving DecidableEq

/-- Model of `bitcoincore_rpc::Client`: the data a constructed client
carries (its url and auth); the outcome of its RPC calls is env-driven. -/
structure Client where
  url : String
  auth : Auth
  deriving DecidableEq

/-- lib.rs:43-52, the connection configuration returned to the caller. -/
structure Config where
  datadir : List String
  cookie_file : List String
  rpc_socket : SocketAddrV4
  p2p_socket : Option SocketAddrV4
  deriving DecidableEq

/-- lib.rs:28-39, the fixture handle.  `work_dir` models the owned
`TempDir` (`_work_dir` in the source), kept so the directory is deleted
only when the struct is dropped. -/
structure BitcoinD where
  process : Child
  client : Client
  work_dir : List String
  config : Config
  deriving DecidableEq

/-- One iteration's worth of daemon responses during the readiness loop
(lib.rs:158-160): the outcome of `Client::new` with cookie auth, and the
outcome of `get_blockchain_info` on that client. -/
structure PollOutcome where
  clientNew : Except RpcError Unit
  blockchainInfo : Except RpcError Unit

/-- The environment of oracles for one `with_args` launch: results of
`TempDir::new()`, of the k-th `TcpListener::bind` probe, of the spawn, of
the k-th poll iteration, of `create_wallet` (by wallet name), and of the
final wallet-scoped `Client::new`. -/
structure Env where
  tempDirResult : Except IoError (List String)
  ports : Nat → Except IoError Nat
  spawn : CommandSpec → Except IoError Unit
  polls : Nat → PollOutcome
  create_wallet : String → Except RpcError Unit
  wallet_client : Except RpcError Unit

/-- Overall outcome of a launch: a returned value, a returned `Err`, a
Rust panic (with its message), or "the readiness loop is still polling
after the given fuel" (the source loop is unbounded, lib.rs:155-168). -/
inductive Outcome (α : Type) where
  | ok (a : α) : Outcome α
  | err (e : Error) : Outcome α
  | panic (msg : String) : Outcome α
  | running : Outcome α
  deriving DecidableEq

/-- lib.rs:208-212 `get_available_port`: binds a probe `TcpListener` on
port 0 and reads back the OS-assigned port.  The probe listener is a
local of the function and is dropped when it returns, so no port stays
reserved across calls; the k-th call simply reports the OS oracle's k-th
assignment.  Errors are wrapped into `Error::Io` by the `?` conversions. -/
def get_available_port (env : Env) (k : Nat) : Except Error Nat :=
  match env.ports k with
  | Except.error e => Except.error (Error.Io e)
  | Except.ok p => Except.ok p

/-- lib.rs:156, the fixed sleep interval of the readiness loop, in ms. -/
def sleep_ms : Nat := 500

/-- lib.rs:162, the wallet name passed to `create_wallet`. -/
def wallet_name : String := "default"

/-- Panic message of the `assert!(process.stderr.is_none())` at lib.rs:157. -/
def assert_stderr_msg : String := "assertion failed: stderr handle is present"

/-- Panic message of the `create_wallet(..).unwrap()` at lib.rs:161-163. -/
def create_wallet_unwrap_msg : String := "unwrap on Err: create_wallet failed"

/-- Panic message of the `Client::new(node_url_default, ..).unwrap()` at
lib.rs:164-165. -/
def wallet_client_unwrap_msg : String := "unwrap on Err: wallet client construction failed"

/-- Result of the readiness loop proper. -/
inductive LoopResult where
  | ok (c : Client) : LoopResult
  | panic (msg : String) : LoopResult
  | running : LoopResult
  deriving DecidableEq

/-- Instrumented loop output: the result, the total milliseconds slept,
and the list of wallet names passed to `create_wallet`, in order. -/
structure LoopOut where
  result : LoopResult
  sleptMs : Nat
  walletCalls : List String
  deriving DecidableEq

/-- lib.rs:159-160 as a Bool: this iteration's `Client::new` succeeded
and `get_blockchain_info` on it succeeded. -/
def poll_ok (o : PollOutcome) : Bool :=
  match o.clientNew, o.blockchainInfo with
  | Except.ok _, Except.ok _ => true
  | _, _ => false

/-- lib.rs:160-165, the body run on the first successful status query:
`create_wallet("default", ..).unwrap()` then
`Client::new(node_url_default, cookie).unwrap()`; each `unwrap` of an
`Err` is a panic, success breaks out with the wallet-scoped client. -/
def wallet_step (env : Env) (node_url_default : String) (cookie_file : List String) : LoopResult :=
  match env.create_wallet wallet_name with
  | Except.error _ => LoopResult.panic create_wallet_unwrap_msg
  | Except.ok _ =>
    match env.wallet_client with
    | Except.error _ => LoopResult.panic wallet_client_unwrap_msg
    | Except.ok _ => LoopResult.ok ⟨node_url_default, Auth.CookieFile cookie_file⟩

/-- One iteration of the readiness loop (lib.rs:155-168) at poll index
`k`, where `rest` is the outcome of the remaining iterations: sleep
500ms, assert the child's stderr handle is absent, try to build a
cookie-authenticated client and query blockchain info; on failure of
either, fall through to the remaining iterations; on success, run
`wallet_step` (exactly one `create_wallet` call, name `"default"`). -/
def ready_step (env : Env) (child : Child) (node_url_default : String)
    (cookie_file : List String) (k : Nat) (rest : LoopOut) : LoopOut :=
  match child.stderr with
  | some _ => ⟨LoopResult.panic assert_stderr_msg, sleep_ms, []⟩
  | none =>
    match (env.polls k).clientNew with
    | Except.error _ => ⟨rest.result, sleep_ms + rest.sleptMs, rest.walletCalls⟩
    | Except.ok _ =>
      match (env.polls k).blockchainInfo with
      | Except.error _ => ⟨rest.result, sleep_ms + rest.sleptMs, rest.walletCalls⟩
      | Except.ok _ =>
        ⟨wallet_step env node_url_default cookie_file, sleep_ms, [wallet_name]⟩

/-- The readiness loop of lib.rs:155-168 with explicit fuel, starting at
poll index `k`.  Fuel exhaustion returns `running`: the source loop has
no attempt bound and no timeout, it only ever exits through
`wallet_step` or a panic. -/
def ready_loop (env : Env) (child : Child) (node_url_default : String)
    (cookie_file : List String) : Nat → Nat → LoopOut
  | 0, _ => ⟨LoopResult.running, 0, []⟩
  | fuel + 1, k =>
    ready_step env child node_url_default cookie_file k
      (ready_loop env child node_url_default cookie_file fuel (k + 1))

/-- lib.rs:112-129: peer arguments and optional p2p socket from the
`P2P` mode.  `Yes` and `Connect` reserve a second port (probe index 1). -/
def p2p_args_socket (env : Env) (p2p : P2P) : Except Error (List String × Option SocketAddrV4) :=
  match p2p with
  | P2P.No => Except.ok (["-listen=0"], none)
  | P2P.Yes =>
    match get_available_port env 1 with
    | Except.error e => Except.error e
    | Except.ok p2p_port =>
      Except.ok (["-port=" ++ toString p2p_port], some ⟨LOCAL_IP, p2p_port⟩)
  | P2P.Connect other_node_url =>
    match get_available_port env 1 with
    | Except.error e => Except.error e
    | Except.ok p2p_port =>
      Except.ok (["-port=" ++ toString p2p_port,
                  "-connect=" ++ other_node_url.display],
                 some ⟨LOCAL_IP, p2p_port⟩)

/-- `Display` of a path (list of components), as used by
`datadir.display()` at lib.rs:136. -/
def path_display (p : List String) : String :=
  String.intercalate "/" p

/-- lib.rs:136-151: the command handed to `spawn`: program `exe`,
arguments `-datadir=..`, `-rpcport=..`, then the peer arguments, then
the caller-supplied arguments; stdout per `view_stdout`; stderr never
configured (spawn default). -/
def build_command (exe : String) (args p2p_args datadir : List String)
    (rpc_port : Nat) (view_stdout : Bool) : CommandSpec :=
  ⟨exe,
   ["-datadir=" ++ path_display datadir, "-rpcport=" ++ toString rpc_port] ++ p2p_args ++ args,
   if view_stdout then Stdio.inherit else Stdio.null,
   none⟩

/-- Record of the externally visible effects of one `with_args` call:
the command spec passed to `spawn` (if spawn was reached), total sleep
time, and the `create_wallet` calls made. -/
structure LaunchTrace where
  spawned : Option CommandSpec
  sleptMs : Nat
  walletCalls : List String
  deriving DecidableEq

/-- lib.rs:168-180, the code after the readiness loop exits: package the
loop outcome into the returned `BitcoinD` (with its `Config` built once
from the already-fixed datadir, cookie path, rpc socket and p2p socket)
or propagate the loop's panic; the launch trace records the spawned
command and the loop's effects. -/
def package (spec : CommandSpec) (work_dir cookie_file : List String)
    (rpc_socket : SocketAddrV4) (p2p_socket : Option SocketAddrV4)
    (process : Child) (out : LoopOut) : Outcome BitcoinD × LaunchTrace :=
  match out.result with
  | LoopResult.panic m => (Outcome.panic m, ⟨some spec, out.sleptMs, out.walletCalls⟩)
  | LoopResult.running => (Outcome.running, ⟨some spec, out.sleptMs, out.walletCalls⟩)
  | LoopResult.ok client =>
    (Outcome.ok ⟨process, client, work_dir,
       ⟨work_dir, cookie_file, rpc_socket, p2p_socket⟩⟩,
     ⟨some spec, out.sleptMs, out.walletCalls⟩)

/-- lib.rs:95-181 `BitcoinD::with_args`: create the temp dir, derive the
cookie path `<datadir>/regtest/.cookie`, reserve the RPC port (probe
index 0), compute peer arguments (probe index 1 when enabled), build and
spawn the command, then run the readiness loop; on loop success return
the fixture handle with its `Config`. -/
def BitcoinD.with_args (env : Env) (fuel : Nat) (exe : String) (args : List String)
    (view_stdout : Bool) (p2p : P2P) : Outcome BitcoinD × LaunchTrace :=
  match env.tempDirResult with
  | Except.error e => (Outcome.err (Error.Io e), ⟨none, 0, []⟩)
  | Except.ok work_dir =>
    let datadir := work_dir
    let cookie_file := datadir ++ ["regtest", ".cookie"]
    match get_available_port env 0 with
    | Except.error e => (Outcome.err e, ⟨none, 0, []⟩)
    | Except.ok rpc_port =>
      let rpc_socket : SocketAddrV4 := ⟨LOCAL_IP, rpc_port⟩
      let rpc_url := "http://" ++ rpc_socket.display
      match p2p_args_socket env p2p with
      | Except.error e => (Outcome.err e, ⟨none, 0, []⟩)
      | Except.ok p2p_pair =>
        let spec := build_command exe args p2p_pair.1 datadir rpc_port view_stdout
        match env.spawn spec with
        | Except.error e => (Outcome.err (Error.Io e), ⟨some spec, 0, []⟩)
        | Except.ok _ =>
          let process := spawn_child spec
          let node_url_default := rpc_url ++ "/wallet/default"
          package spec work_dir cookie_file rpc_socket p2p_pair.2 process
            (ready_loop env process node_url_default cookie_file fuel 0)

/-- lib.rs:77 `DEFAULT_ARGS`. -/
def DEFAULT_ARGS : List String := ["-regtest", "-fallbackfee=0.0001"]

/-- lib.rs:82-84 `BitcoinD::new`: launch with default args, suppressed
stdout, and no p2p. -/
def BitcoinD.new (env : Env) (fuel : Nat) (exe : String) : Outcome BitcoinD × LaunchTrace :=
  BitcoinD.with_args env fuel exe DEFAULT_ARGS false P2P.No

/-- Oracles for one `stop` call: result of the RPC `stop` command and of
`Child::wait`. -/
structure StopEnv where
  rpc_stop : Except RpcError Unit
  wait : Except IoError ExitStatus

/-- lib.rs:194-197 `BitcoinD::stop`: `self.client.stop()?` then
`Ok(self.process.wait()?)`.  The Bool records whether `wait` was
reached (the `?` on the RPC stop returns early without waiting). -/
def BitcoinD.stop (env : StopEnv) : Except Error ExitStatus × Bool :=
  match env.rpc_stop with
  | Except.error e => (Except.error (Error.Rpc e), false)
  | Except.ok _ =>
    match env.wait with
    | Except.error e => (Except.error (Error.Io e), true)
    | Except.ok s => (Except.ok s, true)

/-- State of the child process as the OS sees it. -/
inductive ProcState where
  | running : ProcState
  | exited (code : Nat) : ProcState
  deriving DecidableEq

/-- `Child::kill`: terminates a running process (SIGKILL, modelled as
exit code 9); on an already-exited process it returns an `Err` and
changes nothing. -/
def kill : ProcState → Except IoError Unit × ProcState
  | ProcState.running => (Except.ok (), ProcState.exited 9)
  | ProcState.exited c => (Except.error ⟨"invalid argument: process already exited"⟩, ProcState.exited c)

/-- Effects of dropping a `BitcoinD`. -/
structure DropResult where
  outcome : Outcome Unit
  kill_sent : Bool
  proc : ProcState
  work_dir_deleted : Bool
  deriving DecidableEq

/-- lib.rs:200-204 `Drop for BitcoinD`: `let _ = self.process.kill();`
— the kill is always attempted and its `Result` is discarded — after
which Rust's drop glue drops the `_work_dir` field, whose `TempDir`
destructor deletes the directory (spec 4.2: the temp-dir handle
"removes the entire directory when destroyed"; the `tempfile` crate is
external to this repository).  The drop itself always returns normally. -/
def drop_bitcoind (p : ProcState) : DropResult :=
  let k := kill p
  ⟨Outcome.ok (), true, k.2, true⟩

/-- Whether a process state is still running. -/
def is_running : ProcState → Bool
  | ProcState.running => true
  | ProcState.exited _ => false

/-- `true` iff the outcome is a returned `Err(Error::Rpc _)`. -/
def is_rpc_err : Outcome BitcoinD → Bool
  | Outcome.err (Error.Rpc _) => true
  | _ => false

/-- `true` iff the loop result is the stderr-assertion panic. -/
def is_assert_panic_loop : LoopResult → Bool
  | LoopResult.panic m => m == assert_stderr_msg
  | _ => false

/-- `true` iff the launch outcome is the stderr-assertion panic. -/
def is_assert_panic : Outcome BitcoinD → Bool
  | Outcome.panic m => m == assert_stderr_msg
  | _ => false

/-- The stderr handle of the spawned child is absent (vacuously true
when spawn was never reached). -/
def stderr_absent : Option CommandSpec → Bool
  | none => true
  | some s => (spawn_child s).stderr.isNone

/-- Project a launch result to `(rpc port, p2p port?)` on success. -/
def rpc_p2p_ports : Outcome BitcoinD × LaunchTrace → Option (Nat × Option Nat)
  | (Outcome.ok bd, _) => some (bd.config.rpc_socket.port, Option.map SocketAddrV4.port bd.config.p2p_socket)
  | _ => none

/-- A not-yet-ready iteration (client construction or status query
failed) just falls through to the remaining iterations, adding one
sleep interval. -/
theorem ready_step_not_ready (env : Env) (child : Child) (u : String) (c : List String)
    (k : Nat) (rest : LoopOut) (hs : child.stderr = none)
    (h : poll_ok (env.polls k) = false) :
    ready_step env child u c k rest = ⟨rest.result, sleep_ms + rest.sleptMs, rest.walletCalls⟩ := by
  unfold poll_ok at h
  unfold ready_step
  rw [hs]
  revert h
  rcases (env.polls k).clientNew with e | u1
  · intro h
    rfl
  · rcases (env.polls k).blockchainInfo with e2 | u2
    · intro h
      rfl
    · intro h
      simp at h

/-- A ready iteration runs `wallet_step` with exactly one
`create_wallet` call, after one more sleep interval. -/
theorem ready_step_ready (env : Env) (child : Child) (u : String) (c : List String)
    (k : Nat) (rest : LoopOut) (hs : child.stderr = none)
    (h : poll_ok (env.polls k) = true) :
    ready_step env child u c k rest = ⟨wallet_step env u c, sleep_ms, [wallet_name]⟩ := by
  unfold poll_ok at h
  unfold ready_step
  rw [hs]
  revert h
  rcases (env.polls k).clientNew with e | u1
  · intro h
    simp at h
  · rcases (env.polls k).blockchainInfo with e2 | u2
    · intro h
      simp at h
    · intro h
      rfl

/-- If no poll in the fuel window succeeds, the loop is still running:
it performs one full sleep per iteration, makes no wallet call, and
produces no error of any kind. -/
theorem ready_loop_all_not_ready (env : Env) (child : Child) (u : String) (c : List String)
    (fuel k : Nat) (hs : child.stderr = none)
    (h : ∀ j, j < fuel → poll_ok (env.polls (k + j)) = false) :
    ready_loop env child u c fuel k = ⟨LoopResult.running, sleep_ms * fuel, []⟩ := by
  induction fuel generalizing k with
  | zero => simp [ready_loop]
  | succ f ih =>
    have h0 : poll_ok (env.polls k) = false := by simpa using h 0 (Nat.succ_pos f)
    have hrest : ready_loop env child u c f (k + 1) = ⟨LoopResult.running, sleep_ms * f, []⟩ := by
      apply ih
      intro j hj
      have e : (k + 1) + j = k + (j + 1) := by omega
      rw [e]
      exact h (j + 1) (Nat.succ_lt_succ hj)
    simp only [ready_loop]
    rw [ready_step_not_ready env child u c k _ hs h0, hrest]
    have e2 : sleep_ms + sleep_ms * f = sleep_ms * (f + 1) := by ring
    rw [e2]

/-- If the first successful poll is at index `n` (within fuel), the loop
runs `wallet_step` there, having slept `n + 1` intervals, with exactly
one `create_wallet` call, named `"default"`; the failures of the first
`n` iterations are swallowed and never influence the result. -/
theorem ready_loop_first_ready (env : Env) (child : Child) (u : String) (c : List String)
    (n fuel k : Nat) (hs : child.stderr = none)
    (hlt : ∀ j, j < n → poll_ok (env.polls (k + j)) = false)
    (hn : poll_ok (env.polls (k + n)) = true)
    (hfuel : n < fuel) :
    ready_loop env child u c fuel k = ⟨wallet_step env u c, sleep_ms * (n + 1), [wallet_name]⟩ := by
  induction n generalizing fuel k with
  | zero =>
    obtain ⟨f, rfl⟩ : ∃ f, fuel = f + 1 := ⟨fuel - 1, by omega⟩
    have hk : poll_ok (env.polls k) = true := by simpa using hn
    simp only [ready_loop]
    rw [ready_step_ready env child u c k _ hs hk]
    simp
  | succ m ih =>
    obtain ⟨f, rfl⟩ : ∃ f, fuel = f + 1 := ⟨fuel - 1, by omega⟩
    have h0 : poll_ok (env.polls k) = false := by simpa using hlt 0 (Nat.succ_pos m)
    have hrest : ready_loop env child u c f (k + 1) =
        ⟨wallet_step env u c, sleep_ms * (m + 1), [wallet_name]⟩ := by
      apply ih
      · intro j hj
        have e : (k + 1) + j = k + (j + 1) := by omega
        rw [e]
        exact hlt (j + 1) (Nat.succ_lt_succ hj)
      · have e : (k + 1) + m = k + (m + 1) := by omega
        rw [e]
        exact hn
      · omega
    simp only [ready_loop]
    rw [ready_step_not_ready env child u c k _ hs h0, hrest]
    have e2 : sleep_ms + sleep_ms * (m + 1) = sleep_ms * (m + 1 + 1) := by ring
    rw [e2]

/-- `wallet_step` never produces the stderr-assertion panic: its only
panics are the two `unwrap` messages. -/
theorem wallet_step_not_assert (env : Env) (u : String) (c : List String) :
    is_assert_panic_loop (wallet_step env u c) = false := by
  unfold wallet_step
  cases hc : env.create_wallet wallet_name
  · simp only [is_assert_panic_loop]
    decide
  · cases hw : env.wallet_client
    · simp only [is_assert_panic_loop]
      decide
    · simp [is_assert_panic_loop]

/-- When the spawned child has no piped stderr, the readiness loop's
`assert!(process.stderr.is_none())` never fires: no iteration can end
in the assertion panic. -/
theorem ready_loop_not_assert (env : Env) (child : Child) (u : String) (c : List String)
    (fuel k : Nat) (hs : child.stderr = none) :
    is_assert_panic_loop (ready_loop env child u c fuel k).result = false := by
  induction fuel generalizing k with
  | zero => simp [ready_loop, is_assert_panic_loop]
  | succ f ih =>
    simp only [ready_loop]
    unfold ready_step
    rw [hs]
    cases hc : (env.polls k).clientNew
    · exact ih (k + 1)
    · cases hb : (env.polls k).blockchainInfo
      · exact ih (k + 1)
      · exact wallet_step_not_assert env u c

/-- The launch trace after the loop always records the spawned command
and the loop's sleeps and wallet calls, whatever the loop result. -/
theorem package_trace (spec : CommandSpec) (wd cf : List String) (rs : SocketAddrV4)
    (ps : Option SocketAddrV4) (pc : Child) (out : LoopOut) :
    (package spec wd cf rs ps pc out).2 = ⟨some spec, out.sleptMs, out.walletCalls⟩ := by
  unfold package
  rcases out.result with c | m | _ <;> rfl

/-- Inversion: a packaged success pins down the handle's fields: the
spawned child, the work dir, the `Config` built from the launch values,
and a loop-produced client. -/
theorem package_ok_inv (spec : CommandSpec) (wd cf : List String) (rs : SocketAddrV4)
    (ps : Option SocketAddrV4) (pc : Child) (out : LoopOut) (bd : BitcoinD) (tr : LaunchTrace)
    (h : package spec wd cf rs ps pc out = (Outcome.ok bd, tr)) :
    bd.process = pc ∧ bd.work_dir = wd ∧ bd.config = ⟨wd, cf, rs, ps⟩ ∧
      ∃ c, out.result = LoopResult.ok c ∧ bd.client = c := by
  unfold package at h
  revert h
  rcases hr : out.result with c | m | _
  · intro h
    injection h with h1 h2
    injection h1 with hbd
    obtain rfl : bd = ⟨pc, c, wd, ⟨wd, cf, rs, ps⟩⟩ := hbd.symm
    exact ⟨rfl, rfl, rfl, c, rfl, rfl⟩
  · intro h
    injection h with h1 h2
    exact Outcome.noConfusion h1
  · intro h
    injection h with h1 h2
    exact Outcome.noConfusion h1

/-- A still-running loop packages to the `running` marker: no error, no
handle. -/
theorem package_running (spec : CommandSpec) (wd cf : List String) (rs : SocketAddrV4)
    (ps : Option SocketAddrV4) (pc : Child) (out : LoopOut)
    (h : out.result = LoopResult.running) :
    (package spec wd cf rs ps pc out).1 = Outcome.running := by
  unfold package
  rw [h]

/-- A loop success packages to the fully determined fixture handle. -/
theorem package_of_ok (spec : CommandSpec) (wd cf : List String) (rs : SocketAddrV4)
    (ps : Option SocketAddrV4) (pc : Child) (out : LoopOut) (c : Client)
    (h : out.result = LoopResult.ok c) :
    package spec wd cf rs ps pc out =
      (Outcome.ok ⟨pc, c, wd, ⟨wd, cf, rs, ps⟩⟩, ⟨some spec, out.sleptMs, out.walletCalls⟩) := by
  unfold package
  rw [h]

/-- A loop panic packages to the same panic. -/
theorem package_of_panic (spec : CommandSpec) (wd cf : List String) (rs : SocketAddrV4)
    (ps : Option SocketAddrV4) (pc : Child) (out : LoopOut) (m : String)
    (h : out.result = LoopResult.panic m) :
    (package spec wd cf rs ps pc out).1 = Outcome.panic m := by
  unfold package
  rw [h]

/-- Packaging preserves "is not the stderr-assertion panic". -/
theorem package_not_assert (spec : CommandSpec) (wd cf : List String) (rs : SocketAddrV4)
    (ps : Option SocketAddrV4) (pc : Child) (out : LoopOut)
    (h : is_assert_panic_loop out.result = false) :
    is_assert_panic (package spec wd cf rs ps pc out).1 = false := by
  unfold package
  revert h
  rcases out.result with c | m | _
  · intro h
    rfl
  · intro h
    simpa [is_assert_panic, is_assert_panic_loop] using h
  · intro h
    rfl

/-- When the temp dir, both port probes, and the spawn succeed, the
launch reduces to the readiness loop packaged over the launch values. -/
theorem with_args_reaches (env : Env) (fuel : Nat) (exe : String) (args : List String)
    (v : Bool) (p2p : P2P) (d : List String) (rp : Nat)
    (pr : List String × Option SocketAddrV4)
    (h1 : env.tempDirResult = Except.ok d)
    (h2 : env.ports 0 = Except.ok rp)
    (h3 : p2p_args_socket env p2p = Except.ok pr)
    (h4 : env.spawn (build_command exe args pr.1 d rp v) = Except.ok ()) :
    BitcoinD.with_args env fuel exe args v p2p =
      package (build_command exe args pr.1 d rp v) d (d ++ ["regtest", ".cookie"])
        ⟨LOCAL_IP, rp⟩ pr.2 (spawn_child (build_command exe args pr.1 d rp v))
        (ready_loop env (spawn_child (build_command exe args pr.1 d rp v))
          (("http://" ++ SocketAddrV4.display ⟨LOCAL_IP, rp⟩) ++ "/wallet/default")
          (d ++ ["regtest", ".cookie"]) fuel 0) := by
  simp only [BitcoinD.with_args, get_available_port, h1, h2, h3, h4]

/-- C3: the readiness loop sleeps a fixed 500ms interval per attempt,
has no attempt bound and no timeout (for every fuel, if no poll has yet
succeeded the launch is still `running`, never an error), and a
not-yet-ready condition (client construction failing or the blockchain
info query failing) is swallowed: arbitrary failures before the first
ready poll never surface, the launch still returns the handle. -/
theorem loop_sleeps_fixed_unbounded_and_swallows
    (env : Env) (fuel n : Nat) (exe : String) (args : List String) (v : Bool) (p2p : P2P)
    (d : List String) (rp : Nat) (pr : List String × Option SocketAddrV4)
    (h1 : env.tempDirResult = Except.ok d)
    (h2 : env.ports 0 = Except.ok rp)
    (h3 : p2p_args_socket env p2p = Except.ok pr)
    (h4 : env.spawn (build_command exe args pr.1 d rp v) = Except.ok ()) :
    sleep_ms = 500 ∧
    ((∀ j, j < fuel → poll_ok (env.polls j) = false) →
      (BitcoinD.with_args env fuel exe args v p2p).1 = Outcome.running ∧
      (BitcoinD.with_args env fuel exe args v p2p).2.sleptMs = 500 * fuel) ∧
    ((∀ j, j < n → poll_ok (env.polls j) = false) → poll_ok (env.polls n) = true →
      n < fuel → env.create_wallet wallet_name = Except.ok () →
      env.wallet_client = Except.ok () →
      (∃ bd tr, BitcoinD.with_args env fuel exe args v p2p = (Outcome.ok bd, tr)) ∧
      (BitcoinD.with_args env fuel exe args v p2p).2.sleptMs = 500 * (n + 1)) := by
  have hre := with_args_reaches env fuel exe args v p2p d rp pr h1 h2 h3 h4
  have hs : (spawn_child (build_command exe args pr.1 d rp v)).stderr = none := rfl
  refine ⟨rfl, ?_, ?_⟩
  · intro hnone
    have hloop := ready_loop_all_not_ready env (spawn_child (build_command exe args pr.1 d rp v))
      (("http://" ++ SocketAddrV4.display ⟨LOCAL_IP, rp⟩) ++ "/wallet/default")
      (d ++ ["regtest", ".cookie"]) fuel 0 hs
      (by intro j hj; simpa using hnone j hj)
    rw [hre, hloop]
    constructor
    · exact package_running _ _ _ _ _ _ _ rfl
    · rw [package_trace]
      rfl
  · intro hlt hn hfuel hw hwc
    have hloop := ready_loop_first_ready env (spawn_child (build_command exe args pr.1 d rp v))
      (("http://" ++ SocketAddrV4.display ⟨LOCAL_IP, rp⟩) ++ "/wallet/default")
      (d ++ ["regtest", ".cookie"]) n fuel 0 hs
      (by intro j hj; simpa using hlt j hj) (by simpa using hn) hfuel
    have hws : wallet_step env
        (("http://" ++ SocketAddrV4.display ⟨LOCAL_IP, rp⟩) ++ "/wallet/default")
        (d ++ ["regtest", ".cookie"]) =
        LoopResult.ok ⟨("http://" ++ SocketAddrV4.display ⟨LOCAL_IP, rp⟩) ++ "/wallet/default",
          Auth.CookieFile (d ++ ["regtest", ".cookie"])⟩ := by
      unfold wallet_step
      rw [hw, hwc]
    rw [hre, hloop]
    constructor
    · exact ⟨_, _, package_of_ok _ _ _ _ _ _ _ _ hws⟩
    · rw [package_trace]
      rfl

/-- Concrete launch environment whose first poll fails (connection
refused) and whose second poll succeeds; everything else succeeds. -/
def env_w : Env :=
  ⟨Except.ok ["tmp", "bdw"],
   fun k => Except.ok (43000 + k),
   fun _ => Except.ok (),
   fun k =>
     if k = 0 then ⟨Except.error ⟨"connection refused"⟩, Except.error ⟨"connection refused"⟩⟩
     else ⟨Except.ok (), Except.ok ()⟩,
   fun _ => Except.ok (),
   Except.ok ()⟩

/-- Witness for the readiness-loop theorem: in `env_w` the first poll's
failure is swallowed, the launch succeeds on the second poll after two
500ms sleeps. -/
theorem loop_sleeps_fixed_witness :
    (∃ bd tr, BitcoinD.with_args env_w 2 "bitcoind" DEFAULT_ARGS false P2P.No =
      (Outcome.ok bd, tr)) ∧
    (BitcoinD.with_args env_w 2 "bitcoind" DEFAULT_ARGS false P2P.No).2.sleptMs =
      500 * (1 + 1) :=
  (loop_sleeps_fixed_unbounded_and_swallows env_w 2 1 "bitcoind" DEFAULT_ARGS false P2P.No
    ["tmp", "bdw"] 43000 (["-listen=0"], none) rfl rfl rfl rfl).2.2
    (by decide) rfl (by omega) rfl rfl

/-- C1 (amended): on the first successful status query the loop performs
exactly one wallet-creation call, with name `"default"`; if that call
fails, the failure is fatal and not retried, but it is a panic (the
source unwraps the result, lib.rs:161-163), not a returned
`Error::Rpc`. -/
theorem wallet_created_once_and_failure_fatal
    (env : Env) (fuel n : Nat) (exe : String) (args : List String) (v : Bool) (p2p : P2P)
    (d : List String) (rp : Nat) (pr : List String × Option SocketAddrV4)
    (h1 : env.tempDirResult = Except.ok d)
    (h2 : env.ports 0 = Except.ok rp)
    (h3 : p2p_args_socket env p2p = Except.ok pr)
    (h4 : env.spawn (build_command exe args pr.1 d rp v) = Except.ok ())
    (hlt : ∀ j, j < n → poll_ok (env.polls j) = false)
    (hn : poll_ok (env.polls n) = true)
    (hfuel : n < fuel) :
    (BitcoinD.with_args env fuel exe args v p2p).2.walletCalls = [wallet_name] ∧
    wallet_name = "default" ∧
    (∀ e, env.create_wallet wallet_name = Except.error e →
      (BitcoinD.with_args env fuel exe args v p2p).1 = Outcome.panic create_wallet_unwrap_msg ∧
      is_rpc_err (BitcoinD.with_args env fuel exe args v p2p).1 = false) := by
  have hre := with_args_reaches env fuel exe args v p2p d rp pr h1 h2 h3 h4
  have hs : (spawn_child (build_command exe args pr.1 d rp v)).stderr = none := rfl
  have hloop := ready_loop_first_ready env (spawn_child (build_command exe args pr.1 d rp v))
    (("http://" ++ SocketAddrV4.display ⟨LOCAL_IP, rp⟩) ++ "/wallet/default")
    (d ++ ["regtest", ".cookie"]) n fuel 0 hs
    (by intro j hj; simpa using hlt j hj) (by simpa using hn) hfuel
  rw [hre, hloop]
  refine ⟨?_, rfl, ?_⟩
  · rw [package_trace]
  · intro e he
    have hp : wallet_step env
        (("http://" ++ SocketAddrV4.display ⟨LOCAL_IP, rp⟩) ++ "/wallet/default")
        (d ++ ["regtest", ".cookie"]) = LoopResult.panic create_wallet_unwrap_msg := by
      unfold wallet_step
      rw [he]
    constructor
    · exact package_of_panic _ _ _ _ _ _ _ _ hp
    · rw [package_of_panic _ _ _ _ _ _ _ _ hp]
      rfl

/-- Concrete launch environment that is ready at once but rejects the
wallet creation. -/
def env_c1 : Env :=
  ⟨Except.ok ["tmp", "bd1"],
   fun k => Except.ok (41000 + k),
   fun _ => Except.ok (),
   fun _ => ⟨Except.ok (), Except.ok ()⟩,
   fun _ => Except.error ⟨"wallet already exists"⟩,
   Except.ok ()⟩

/-- C1 counterexample: when the daemon is ready but `create_wallet`
fails, `with_args` does not return an `Error::Rpc` result to the caller
— it panics with the unwrap message (lib.rs:161-163), refuting the
claim that the failure is propagated as an `Error::Rpc` result. -/
theorem create_wallet_failure_panics_cex :
    (BitcoinD.with_args env_c1 1 "bitcoind" DEFAULT_ARGS false P2P.No).1 =
      Outcome.panic create_wallet_unwrap_msg ∧
    is_rpc_err (BitcoinD.with_args env_c1 1 "bitcoind" DEFAULT_ARGS false P2P.No).1 = false ∧
    (BitcoinD.with_args env_c1 1 "bitcoind" DEFAULT_ARGS false P2P.No).2.walletCalls =
      [wallet_name] :=
  ⟨rfl, rfl, rfl⟩

/-- Witness for the amended wallet-creation theorem at `env_c1`. -/
theorem wallet_created_once_witness :
    (BitcoinD.with_args env_c1 1 "bitcoind" DEFAULT_ARGS false P2P.No).2.walletCalls =
      [wallet_name] ∧
    (BitcoinD.with_args env_c1 1 "bitcoind" DEFAULT_ARGS false P2P.No).1 =
      Outcome.panic create_wallet_unwrap_msg := by
  have h := wallet_created_once_and_failure_fatal env_c1 1 0 "bitcoind" DEFAULT_ARGS false P2P.No
    ["tmp", "bd1"] 41000 (["-listen=0"], none) rfl rfl rfl rfl
    (by intro j hj; omega) rfl (by omega)
  exact ⟨h.1, (h.2.2 ⟨"wallet already exists"⟩ rfl).1⟩

/-- Inversion of a successful launch: the temp dir and the RPC-port
probe succeeded, the peer-argument computation succeeded, and the
returned `Config` is built exactly from those values: datadir = the temp
dir, cookie file = datadir followed by `regtest/.cookie`, rpc socket =
loopback with the probed port, p2p socket = the one computed from the
peer mode. -/
theorem with_args_ok_shape (env : Env) (fuel : Nat) (exe : String) (args : List String)
    (v : Bool) (p2p : P2P) (bd : BitcoinD) (tr : LaunchTrace)
    (hok : BitcoinD.with_args env fuel exe args v p2p = (Outcome.ok bd, tr)) :
    ∃ d rp pr, env.tempDirResult = Except.ok d ∧ env.ports 0 = Except.ok rp ∧
      p2p_args_socket env p2p = Except.ok pr ∧
      bd.config = ⟨d, d ++ ["regtest", ".cookie"], ⟨LOCAL_IP, rp⟩, pr.2⟩ := by
  rcases htd : env.tempDirResult with e | d
  · simp [BitcoinD.with_args, htd] at hok
  · rcases hp0 : env.ports 0 with e | rp
    · simp [BitcoinD.with_args, get_available_port, htd, hp0] at hok
    · rcases hpr : p2p_args_socket env p2p with e | pr
      · simp [BitcoinD.with_args, get_available_port, htd, hp0, hpr] at hok
      · rcases hsp : env.spawn (build_command exe args pr.1 d rp v) with e | u0
        · simp [BitcoinD.with_args, get_available_port, htd, hp0, hpr, hsp] at hok
        · simp only [BitcoinD.with_args, get_available_port, htd, hp0, hpr, hsp] at hok
          obtain ⟨hproc, hwd, hcfg, c, hres, hcl⟩ := package_ok_inv _ _ _ _ _ _ _ _ _ hok
          exact ⟨d, rp, pr, rfl, rfl, rfl, hcfg⟩

/-- C4: for every successful launch, `config.p2p_socket` is `None` iff
p2p networking was disabled (`P2P::No`); for `P2P::Yes` and
`P2P::Connect` it is `Some` socket on the loopback IP carrying the
second freshly probed port. -/
theorem p2p_socket_none_iff_disabled (env : Env) (fuel : Nat) (exe : String)
    (args : List String) (v : Bool) (p2p : P2P) (bd : BitcoinD) (tr : LaunchTrace)
    (hok : BitcoinD.with_args env fuel exe args v p2p = (Outcome.ok bd, tr)) :
    (bd.config.p2p_socket = none ↔ p2p = P2P.No) ∧
    (∀ pp, p2p ≠ P2P.No → env.ports 1 = Except.ok pp →
      bd.config.p2p_socket = some ⟨LOCAL_IP, pp⟩) := by
  obtain ⟨d, rp, pr, htd, hp0, hpr, hcfg⟩ := with_args_ok_shape env fuel exe args v p2p bd tr hok
  rw [hcfg]
  cases p2p with
  | No =>
    obtain rfl : pr = (["-listen=0"], none) := (Except.ok.inj hpr).symm
    constructor
    · exact iff_of_true rfl rfl
    · intro pp hne hpp
      exact absurd rfl hne
  | Yes =>
    rcases hp1 : env.ports 1 with e | pp0
    · simp [p2p_args_socket, get_available_port, hp1] at hpr
    · have hval : p2p_args_socket env P2P.Yes =
          Except.ok (["-port=" ++ toString pp0], some ⟨LOCAL_IP, pp0⟩) := by
        simp [p2p_args_socket, get_available_port, hp1]
      obtain rfl : pr = (["-port=" ++ toString pp0], some ⟨LOCAL_IP, pp0⟩) :=
        (Except.ok.inj (hval.symm.trans hpr)).symm
      constructor
      · exact iff_of_false (by simp) (by simp)
      · intro pp hne hpp
        obtain rfl : pp0 = pp := Except.ok.inj hpp
        rfl
  | Connect a =>
    rcases hp1 : env.ports 1 with e | pp0
    · simp [p2p_args_socket, get_available_port, hp1] at hpr
    · have hval : p2p_args_socket env (P2P.Connect a) =
          Except.ok (["-port=" ++ toString pp0, "-connect=" ++ a.display],
            some ⟨LOCAL_IP, pp0⟩) := by
        simp [p2p_args_socket, get_available_port, hp1]
      obtain rfl : pr = (["-port=" ++ toString pp0, "-connect=" ++ a.display],
          some ⟨LOCAL_IP, pp0⟩) :=
        (Except.ok.inj (hval.symm.trans hpr)).symm
      constructor
      · exact iff_of_false (by simp) (by simp)
      · intro pp hne hpp
        obtain rfl : pp0 = pp := Except.ok.inj hpp
        rfl

/-- C9: for every successful launch, the cookie file is exactly the
datadir joined with `regtest` and `.cookie`, hence a path under the
datadir; the `Config` is the one value built at lib.rs:174-179 (the
embedding is purely functional, so it is never mutated afterwards). -/
theorem cookie_file_under_datadir (env : Env) (fuel : Nat) (exe : String)
    (args : List String) (v : Bool) (p2p : P2P) (bd : BitcoinD) (tr : LaunchTrace)
    (hok : BitcoinD.with_args env fuel exe args v p2p = (Outcome.ok bd, tr)) :
    bd.config.cookie_file = bd.config.datadir ++ ["regtest", ".cookie"] ∧
    bd.config.datadir <+: bd.config.cookie_file := by
  obtain ⟨d, rp, pr, htd, hp0, hpr, hcfg⟩ := with_args_ok_shape env fuel exe args v p2p bd tr hok
  rw [hcfg]
  exact ⟨rfl, ⟨["regtest", ".cookie"], rfl⟩⟩

/-- C2 (amended): `get_available_port` performs no dedup — the k-th call
returns exactly the OS oracle's k-th assignment, because the probe
listener of lib.rs:210 is released when the function returns, reserving
nothing across calls.  Distinctness of the rpc and p2p ports of a
successful p2p-enabled launch therefore holds exactly under the
assumption that the OS assigned distinct ports to the two probes. -/
theorem distinct_ports_under_distinct_assignment (env : Env) (fuel : Nat) (exe : String)
    (args : List String) (v : Bool) (p2p : P2P) (rp pp : Nat) (bd : BitcoinD)
    (tr : LaunchTrace)
    (h2 : env.ports 0 = Except.ok rp)
    (h3 : env.ports 1 = Except.ok pp)
    (hdiff : rp ≠ pp)
    (hne : p2p ≠ P2P.No)
    (hok : BitcoinD.with_args env fuel exe args v p2p = (Outcome.ok bd, tr)) :
    (∃ q, bd.config.p2p_socket = some q ∧ q.port ≠ bd.config.rpc_socket.port) ∧
    (∀ k q, env.ports k = Except.ok q → get_available_port env k = Except.ok q) := by
  constructor
  · obtain ⟨d, rp2, pr, htd, hp0, hpr, hcfg⟩ :=
      with_args_ok_shape env fuel exe args v p2p bd tr hok
    obtain rfl : rp2 = rp := by
      rw [h2] at hp0
      exact (Except.ok.inj hp0).symm
    cases p2p with
    | No => exact absurd rfl hne
    | Yes =>
      have hval : p2p_args_socket env P2P.Yes =
          Except.ok (["-port=" ++ toString pp], some ⟨LOCAL_IP, pp⟩) := by
        simp [p2p_args_socket, get_available_port, h3]
      obtain rfl : pr = (["-port=" ++ toString pp], some ⟨LOCAL_IP, pp⟩) :=
        (Except.ok.inj (hval.symm.trans hpr)).symm
      refine ⟨⟨LOCAL_IP, pp⟩, ?_, ?_⟩
      · rw [hcfg]
      · rw [hcfg]
        intro hq
        exact hdiff hq.symm
    | Connect a =>
      have hval : p2p_args_socket env (P2P.Connect a) =
          Except.ok (["-port=" ++ toString pp, "-connect=" ++ a.display],
            some ⟨LOCAL_IP, pp⟩) := by
        simp [p2p_args_socket, get_available_port, h3]
      obtain rfl : pr = (["-port=" ++ toString pp, "-connect=" ++ a.display],
          some ⟨LOCAL_IP, pp⟩) :=
        (Except.ok.inj (hval.symm.trans hpr)).symm
      refine ⟨⟨LOCAL_IP, pp⟩, ?_, ?_⟩
      · rw [hcfg]
      · rw [hcfg]
        intro hq
        exact hdiff hq.symm
  · intro k q h
    unfold get_available_port
    rw [h]

/-- Concrete environment whose OS port oracle assigns the same port,
45000, to every probe bind.  This is a legal OS behaviour for this code:
the probe listener of `get_available_port` (lib.rs:210) is dropped when
the function returns, so at the moment of the second probe no port is
held by the process and the OS may reassign the port just released. -/
def env_c2 : Env :=
  ⟨Except.ok ["tmp", "bd2"],
   fun _ => Except.ok 45000,
   fun _ => Except.ok (),
   fun _ => ⟨Except.ok (), Except.ok ()⟩,
   fun _ => Except.ok (),
   Except.ok ()⟩

/-- C2 counterexample: under the constant port oracle the p2p-enabled
launch succeeds with `p2p_socket` carrying the SAME port as
`rpc_socket`, and two sequential `get_available_port` calls return equal
ports — the code never enforces distinctness. -/
theorem equal_ports_possible_cex :
    rpc_p2p_ports (BitcoinD.with_args env_c2 1 "bitcoind" DEFAULT_ARGS false P2P.Yes) =
      some (45000, some 45000) ∧
    get_available_port env_c2 0 = get_available_port env_c2 1 ∧
    get_available_port env_c2 0 = Except.ok 45000 :=
  ⟨rfl, rfl, rfl⟩

/-- Once the temp dir, the rpc-port probe, and the peer-argument
computation succeed, `with_args` always hands exactly the built command
to `spawn` — even when the spawn itself then fails. -/
theorem with_args_spawned (env : Env) (fuel : Nat) (exe : String) (args : List String)
    (v : Bool) (p2p : P2P) (d : List String) (rp : Nat)
    (pr : List String × Option SocketAddrV4)
    (h1 : env.tempDirResult = Except.ok d)
    (h2 : env.ports 0 = Except.ok rp)
    (h3 : p2p_args_socket env p2p = Except.ok pr) :
    (BitcoinD.with_args env fuel exe args v p2p).2.spawned =
      some (build_command exe args pr.1 d rp v) := by
  simp only [BitcoinD.with_args, get_available_port, h1, h2, h3]
  rcases env.spawn (build_command exe args pr.1 d rp v) with e | u0
  · rfl
  · rw [package_trace]

/-- C5: the argument list handed to the spawned executable is, in
order: the `-datadir` argument, the `-rpcport` argument, the peer
arguments of the chosen p2p mode (`P2P::No` gives exactly `-listen=0`;
`P2P::Yes` exactly `-port=<p2p_port>`; `P2P::Connect(addr)` exactly
`-port=<p2p_port>` then `-connect=<addr>`), then all caller-supplied
arguments appended last. -/
theorem spawn_argument_order (env : Env) (fuel : Nat) (exe : String) (args : List String)
    (v : Bool) (p2p : P2P) (d : List String) (rp pp : Nat) (spec : CommandSpec)
    (h1 : env.tempDirResult = Except.ok d)
    (h2 : env.ports 0 = Except.ok rp)
    (h3 : env.ports 1 = Except.ok pp)
    (hsp : (BitcoinD.with_args env fuel exe args v p2p).2.spawned = some spec) :
    spec.program = exe ∧
    spec.args =
      ["-datadir=" ++ path_display d, "-rpcport=" ++ toString rp] ++
      (match p2p with
       | P2P.No => ["-listen=0"]
       | P2P.Yes => ["-port=" ++ toString pp]
       | P2P.Connect a => ["-port=" ++ toString pp, "-connect=" ++ a.display]) ++
      args := by
  cases p2p with
  | No =>
    rw [with_args_spawned env fuel exe args v P2P.No d rp (["-listen=0"], none) h1 h2 rfl] at hsp
    obtain rfl : spec = build_command exe args ["-listen=0"] d rp v :=
      (Option.some.inj hsp).symm
    exact ⟨rfl, rfl⟩
  | Yes =>
    have hpr : p2p_args_socket env P2P.Yes =
        Except.ok (["-port=" ++ toString pp], some ⟨LOCAL_IP, pp⟩) := by
      simp [p2p_args_socket, get_available_port, h3]
    rw [with_args_spawned env fuel exe args v P2P.Yes d rp _ h1 h2 hpr] at hsp
    obtain rfl : spec = build_command exe args ["-port=" ++ toString pp] d rp v :=
      (Option.some.inj hsp).symm
    exact ⟨rfl, rfl⟩
  | Connect a =>
    have hpr : p2p_args_socket env (P2P.Connect a) =
        Except.ok (["-port=" ++ toString pp, "-connect=" ++ a.display],
          some ⟨LOCAL_IP, pp⟩) := by
      simp [p2p_args_socket, get_available_port, h3]
    rw [with_args_spawned env fuel exe args v (P2P.Connect a) d rp _ h1 h2 hpr] at hsp
    obtain rfl : spec =
        build_command exe args ["-port=" ++ toString pp, "-connect=" ++ a.display] d rp v :=
      (Option.some.inj hsp).symm
    exact ⟨rfl, rfl⟩

/-- C8: the spawned child never has its stderr separately piped — the
command is built with no stderr configuration (lib.rs:146-151 only sets
stdout), so the child's stderr handle is absent and the readiness
loop's `assert!(process.stderr.is_none())` holds on every iteration:
the launch can never end in the assertion panic. -/
theorem stderr_never_piped (env : Env) (fuel : Nat) (exe : String) (args : List String)
    (v : Bool) (p2p : P2P) (d : List String) (rp : Nat)
    (pr : List String × Option SocketAddrV4)
    (h1 : env.tempDirResult = Except.ok d)
    (h2 : env.ports 0 = Except.ok rp)
    (h3 : p2p_args_socket env p2p = Except.ok pr) :
    (∀ spec, (BitcoinD.with_args env fuel exe args v p2p).2.spawned = some spec →
      (spawn_child spec).stderr = none) ∧
    is_assert_panic (BitcoinD.with_args env fuel exe args v p2p).1 = false := by
  constructor
  · intro spec hspec
    rw [with_args_spawned env fuel exe args v p2p d rp pr h1 h2 h3] at hspec
    obtain rfl : spec = build_command exe args pr.1 d rp v := (Option.some.inj hspec).symm
    rfl
  · simp only [BitcoinD.with_args, get_available_port, h1, h2, h3]
    rcases env.spawn (build_command exe args pr.1 d rp v) with e | u0
    · rfl
    · exact package_not_assert _ _ _ _ _ _ _
        (ready_loop_not_assert env (spawn_child (build_command exe args pr.1 d rp v)) _ _ fuel 0 rfl)

/-- C7: `stop` first sends the daemon's stop command over RPC; only if
that succeeds does it block on `Child::wait` and return the exit
status.  An RPC failure propagates as `Error::Rpc` without waiting on
the process; a wait failure propagates as `Error::Io` (after waiting
was attempted). -/
theorem stop_sends_rpc_then_waits (env : StopEnv) :
    (∀ e, env.rpc_stop = Except.error e →
      BitcoinD.stop env = (Except.error (Error.Rpc e), false)) ∧
    (∀ e, env.rpc_stop = Except.ok () → env.wait = Except.error e →
      BitcoinD.stop env = (Except.error (Error.Io e), true)) ∧
    (∀ s, env.rpc_stop = Except.ok () → env.wait = Except.ok s →
      BitcoinD.stop env = (Except.ok s, true)) := by
  refine ⟨?_, ?_, ?_⟩
  · intro e he
    unfold BitcoinD.stop
    rw [he]
  · intro e hr hw
    unfold BitcoinD.stop
    rw [hr, hw]
  · intro s hr hw
    unfold BitcoinD.stop
    rw [hr, hw]

/-- Witness for `stop`: an RPC-stop failure returns `Error::Rpc` and
never reaches the wait; a clean run returns the exit status. -/
theorem stop_sends_rpc_then_waits_witness :
    BitcoinD.stop ⟨Except.error ⟨"stop rejected"⟩, Except.ok ⟨0⟩⟩ =
      (Except.error (Error.Rpc ⟨"stop rejected"⟩), false) ∧
    BitcoinD.stop ⟨Except.ok (), Except.ok ⟨0⟩⟩ = (Except.ok ⟨0⟩, true) :=
  ⟨(stop_sends_rpc_then_waits ⟨Except.error ⟨"stop rejected"⟩, Except.ok ⟨0⟩⟩).1
     ⟨"stop rejected"⟩ rfl,
   (stop_sends_rpc_then_waits ⟨Except.ok (), Except.ok ⟨0⟩⟩).2.2 ⟨0⟩ rfl rfl⟩

/-- C6: dropping a `BitcoinD` always attempts the kill (its `Result` is
discarded, lib.rs:202), returns normally with no panic and no error for
every prior process state — in particular when the process has already
exited after `stop` — leaves the process not running, and drops the
owned temp-dir handle so the working directory is deleted. -/
theorem drop_kills_and_deletes (p : ProcState) :
    (drop_bitcoind p).outcome = Outcome.ok () ∧
    (drop_bitcoind p).kill_sent = true ∧
    is_running (drop_bitcoind p).proc = false ∧
    (drop_bitcoind p).work_dir_deleted = true := by
  cases p with
  | running => exact ⟨rfl, rfl, rfl, rfl⟩
  | exited c => exact ⟨rfl, rfl, rfl, rfl⟩

/-- C10: `BitcoinD::new` is definitionally `with_args` with exactly the
default arguments `-regtest -fallbackfee=0.0001`, suppressed stdout and
p2p disabled: identical result on success and identical error on
failure, for every environment. -/
theorem new_refines_with_args (env : Env) (fuel : Nat) (exe : String) :
    BitcoinD.new env fuel exe = BitcoinD.with_args env fuel exe DEFAULT_ARGS false P2P.No ∧
    DEFAULT_ARGS = ["-regtest", "-fallbackfee=0.0001"] :=
  ⟨rfl, rfl⟩

/-- The fixture handle produced by `env_w` with p2p enabled. -/
def bd_w_yes : BitcoinD :=
  ⟨⟨none⟩,
   ⟨"http://127.0.0.1:43000/wallet/default",
    Auth.CookieFile ["tmp", "bdw", "regtest", ".cookie"]⟩,
   ["tmp", "bdw"],
   ⟨["tmp", "bdw"], ["tmp", "bdw", "regtest", ".cookie"],
    ⟨LOCAL_IP, 43000⟩, some ⟨LOCAL_IP, 43001⟩⟩⟩

/-- The launch trace produced by `env_w` with p2p enabled. -/
def tr_w_yes : LaunchTrace :=
  ⟨some (build_command "bitcoind" DEFAULT_ARGS ["-port=43001"] ["tmp", "bdw"] 43000 false),
   1000, ["default"]⟩

/-- The fixture handle produced by `env_w` with p2p disabled. -/
def bd_w_no : BitcoinD :=
  ⟨⟨none⟩,
   ⟨"http://127.0.0.1:43000/wallet/default",
    Auth.CookieFile ["tmp", "bdw", "regtest", ".cookie"]⟩,
   ["tmp", "bdw"],
   ⟨["tmp", "bdw"], ["tmp", "bdw", "regtest", ".cookie"],
    ⟨LOCAL_IP, 43000⟩, none⟩⟩

/-- The launch trace produced by `env_w` with p2p disabled. -/
def tr_w_no : LaunchTrace :=
  ⟨some (build_command "bitcoind" DEFAULT_ARGS ["-listen=0"] ["tmp", "bdw"] 43000 false),
   1000, ["default"]⟩

/-- Witness for the p2p-socket theorem at a concrete p2p-enabled launch. -/
theorem p2p_socket_witness :
    (bd_w_yes.config.p2p_socket = none ↔ P2P.Yes = P2P.No) ∧
    (∀ pp, P2P.Yes ≠ P2P.No → env_w.ports 1 = Except.ok pp →
      bd_w_yes.config.p2p_socket = some ⟨LOCAL_IP, pp⟩) :=
  p2p_socket_none_iff_disabled env_w 2 "bitcoind" DEFAULT_ARGS false P2P.Yes
    bd_w_yes tr_w_yes rfl

/-- Witness for the cookie-file theorem at a concrete launch. -/
theorem cookie_file_witness :
    bd_w_no.config.cookie_file = bd_w_no.config.datadir ++ ["regtest", ".cookie"] ∧
    bd_w_no.config.datadir <+: bd_w_no.config.cookie_file :=
  cookie_file_under_datadir env_w 2 "bitcoind" DEFAULT_ARGS false P2P.No
    bd_w_no tr_w_no rfl

/-- Witness for the amended port-distinctness theorem: with distinct OS
assignments 43000 and 43001 the p2p port differs from the rpc port. -/
theorem distinct_ports_witness :
    (∃ q, bd_w_yes.config.p2p_socket = some q ∧
      q.port ≠ bd_w_yes.config.rpc_socket.port) ∧
    (∀ k q, env_w.ports k = Except.ok q → get_available_port env_w k = Except.ok q) :=
  distinct_ports_under_distinct_assignment env_w 2 "bitcoind" DEFAULT_ARGS false P2P.Yes
    43000 43001 bd_w_yes tr_w_yes rfl rfl (by decide) (by decide) rfl

/-- Witness for the spawn-argument-order theorem at a concrete launch. -/
theorem spawn_argument_order_witness :
    (build_command "bitcoind" DEFAULT_ARGS ["-port=43001"] ["tmp", "bdw"] 43000
      false).program = "bitcoind" ∧
    (build_command "bitcoind" DEFAULT_ARGS ["-port=43001"] ["tmp", "bdw"] 43000
      false).args =
      ["-datadir=" ++ path_display ["tmp", "bdw"], "-rpcport=" ++ toString 43000] ++
      (match P2P.Yes with
       | P2P.No => ["-listen=0"]
       | P2P.Yes => ["-port=" ++ toString 43001]
       | P2P.Connect a => ["-port=" ++ toString 43001, "-connect=" ++ a.display]) ++
      DEFAULT_ARGS :=
  spawn_argument_order env_w 2 "bitcoind" DEFAULT_ARGS false P2P.Yes ["tmp", "bdw"]
    43000 43001 (build_command "bitcoind" DEFAULT_ARGS ["-port=43001"] ["tmp", "bdw"] 43000 false)
    rfl rfl rfl rfl

/-- Witness for the stderr theorem at a concrete launch. -/
theorem stderr_never_piped_witness :
    (spawn_child (build_command "bitcoind" DEFAULT_ARGS ["-listen=0"] ["tmp", "bdw"] 43000
      false)).stderr = none ∧
    is_assert_panic (BitcoinD.with_args env_w 2 "bitcoind" DEFAULT_ARGS false P2P.No).1 =
      false :=
  ⟨(stderr_never_piped env_w 2 "bitcoind" DEFAULT_ARGS false P2P.No ["tmp", "bdw"] 43000
      (["-listen=0"], none) rfl rfl rfl).1 _ rfl,
   (stderr_never_piped env_w 2 "bitcoind" DEFAULT_ARGS false P2P.No ["tmp", "bdw"] 43000
      (["-listen=0"], none) rfl rfl rfl).2⟩
